import Mathlib

/-!
Verification of the PrevailPay wage-aggregation core (src/main.py,
`generate_submission`) against its specification.

Modelling conventions:
* MongoDB documents are loosely typed dicts in the source; `dict.get`
  with a possibly-missing key is modelled by `Option` fields, and
  `t.get(k, d)` becomes `(t.k).getD d`.
* Python floats are modelled by exact rationals `ℚ`.
* The Python dict `rate_map`, built by inserting templates in order
  (later insertions overwriting earlier ones), is modelled by looking
  up the last template in the list whose craft matches.
* `round(v, 2)` (Python's builtin, round-half-to-even on the value) is
  modelled by `round2`.
-/

/-- A single quote character, used in warning strings. -/
def squote : String := String.singleton (Char.ofNat 39)

/-- Python's `str()` applied to an optional string: `None` renders as
the literal text `None`, a present string renders verbatim. -/
def pyStr : Option String → String
  | none => "None"
  | some s => s

/-- A wage-template document as stored (all fields possibly absent,
mirroring `r.get(...)` access in `main.py` lines 117-123). -/
structure WageRateDoc where
  craft : Option String
  base_rate : Option ℚ
  fringe_rate : Option ℚ
  apprentice_factor : Option ℚ
deriving DecidableEq, Repr

/-- The value stored in `rate_map` for one craft (`main.py` 119-123). -/
structure RateVal where
  base : ℚ
  fringe : ℚ
  apprentice_factor : ℚ
deriving DecidableEq, Repr

/-- `main.py` 119-123: the dict value built from one template, with the
defaults of `r.get("base_rate", 0)`, `r.get("fringe_rate", 0)`,
`r.get("apprentice_factor", 0.6)`. -/
def toRateVal (r : WageRateDoc) : RateVal :=
  { base := (r.base_rate).getD 0
  , fringe := (r.fringe_rate).getD 0
  , apprentice_factor := (r.apprentice_factor).getD (3/5) }

/-- `main.py` 116-123 and 137/140: `rate_map` lookup. Building a dict
in template order with overwrites means a lookup returns the value of
the LAST template whose craft equals the key. -/
def rateLookup (rates : List WageRateDoc) (c : Option String) : Option RateVal :=
  (rates.reverse.find? (fun r => r.craft = c)).map toRateVal

/-- A timesheet row as seen by the aggregation loop (`main.py`
133-136): craft, hours and apprentice flag, each possibly absent. -/
structure RowDoc where
  craft : Option String
  hours : Option ℚ
  apprentice : Option Bool
deriving DecidableEq, Repr

/-- The four accumulators of `main.py` 125-130. -/
structure Totals where
  hours : ℚ
  base_pay : ℚ
  fringe : ℚ
  gross : ℚ
deriving DecidableEq, Repr

/-- Warning string of `main.py` 138 for a row with unmatched craft. -/
def missingWarning (c : Option String) : String :=
  "Missing wage rate for craft " ++ squote ++ pyStr c ++ squote

/-- One iteration of the loop at `main.py` 133-149: either append a
warning (unmatched craft) or add the row's pay to the accumulators. -/
def processRow (rates : List WageRateDoc) (acc : Totals × List String)
    (t : RowDoc) : Totals × List String :=
  let craft := t.craft
  let hours := (t.hours).getD 0
  let apprentice := (t.apprentice).getD false
  match rateLookup rates craft with
  | none => (acc.1, acc.2 ++ [missingWarning craft])
  | some rm =>
      let base_rate := rm.base * (if apprentice then rm.apprentice_factor else 1)
      let fringe_rate := rm.fringe
      let base_pay := base_rate * hours
      let fringe_pay := fringe_rate * hours
      let gross := base_pay + fringe_pay
      ({ hours := acc.1.hours + hours
       , base_pay := acc.1.base_pay + base_pay
       , fringe := acc.1.fringe + fringe_pay
       , gross := acc.1.gross + gross }, acc.2)

/-- The whole aggregation loop (`main.py` 125-149): fold `processRow`
over the rows starting from zero accumulators and no warnings. -/
def aggregate (rates : List WageRateDoc) (rows : List RowDoc) :
    Totals × List String :=
  rows.foldl (processRow rates) (⟨0, 0, 0, 0⟩, [])

/-- Round-half-to-even to an integer, the rounding of Python's builtin
`round` applied to the exact value. -/
def rhe (q : ℚ) : ℤ :=
  let f := ⌊q⌋
  let frac := q - f
  if frac < 1/2 then f
  else if 1/2 < frac then f + 1
  else if f % 2 = 0 then f else f + 1

/-- `round(v, 2)` of `main.py` 154, on the exact value. -/
def round2 (q : ℚ) : ℚ := (rhe (q * 100) : ℚ) / 100

/-- Modelled from the spec: round-half-away-from-zero to 2 decimal
places, the rounding rule the specification prescribes for the totals
("specify round-half-away-from-zero for determinism"); compared
against `round2`, the rule the code uses. -/
def round2Spec (q : ℚ) : ℚ :=
  (if 0 ≤ q then (⌊q * 100 + 1/2⌋ : ℤ) else -⌊-(q * 100) + 1/2⌋ : ℤ) / 100

/-- `main.py` 154: each accumulator rounded to 2 decimal places. -/
def roundTotals (t : Totals) : Totals :=
  { hours := round2 t.hours
  , base_pay := round2 t.base_pay
  , fringe := round2 t.fringe
  , gross := round2 t.gross }

/-- A stored project document, keeping only the fields
`generate_submission` reads (`main.py` 110). -/
structure ProjectDoc where
  wage_templates : Option (List WageRateDoc)
deriving DecidableEq, Repr

/-- A stored timesheet-entry document (`main.py` 113, 133-136). -/
structure TimesheetDoc where
  project_id : String
  week_ending : String
  craft : Option String
  hours : Option ℚ
  apprentice : Option Bool
deriving DecidableEq, Repr

/-- Projection of a timesheet document onto the fields the aggregation
loop reads. -/
def TimesheetDoc.toRow (t : TimesheetDoc) : RowDoc :=
  { craft := t.craft, hours := t.hours, apprentice := t.apprentice }

/-- The submission document written at `main.py` 151-157. -/
structure SubmissionDoc where
  project_id : String
  week_ending : String
  totals : Totals
  warnings : List String
  status : String
deriving DecidableEq, Repr

/-- The state of the document store, restricted to the collections
`generate_submission` touches. Projects carry their store-assigned
`_id`. -/
structure Store where
  projects : List (String × ProjectDoc)
  timesheets : List TimesheetDoc
  submissions : List SubmissionDoc
deriving DecidableEq, Repr

/-- The request body of `POST /submissions/generate` (`main.py` 98-100). -/
structure GenerateRequest where
  project_id : String
  week_ending : String
deriving DecidableEq, Repr

/-- An HTTP error response (`HTTPException` in `main.py`). -/
structure HTTPError where
  status_code : Nat
  detail : String
deriving DecidableEq, Repr

/-- `main.py` 113: the timesheet query filter — exact match on both
`project_id` and `week_ending`. -/
def matchesReq (req : GenerateRequest) (t : TimesheetDoc) : Bool :=
  t.project_id = req.project_id && t.week_ending = req.week_ending

/-- `generate_submission` (`main.py` 102-159): look up the project by
id (first match, 404 if none), query the matching timesheet rows,
aggregate, round, and append the new submission document to the store.
On error the store is returned unchanged. -/
def generate_submission (store : Store) (req : GenerateRequest) :
    Store × Except HTTPError SubmissionDoc :=
  match store.projects.find? (fun p => p.1 = req.project_id) with
  | none => (store, .error ⟨404, "Project not found"⟩)
  | some (_, proj) =>
      let rates := (proj.wage_templates).getD []
      let rows := store.timesheets.filter (matchesReq req)
      let result := aggregate rates (rows.map TimesheetDoc.toRow)
      let sub : SubmissionDoc :=
        { project_id := req.project_id
        , week_ending := req.week_ending
        , totals := roundTotals result.1
        , warnings := result.2
        , status := "generated" }
      ({ store with submissions := store.submissions ++ [sub] }, .ok sub)

/-! ## Helper lemmas -/

/-- `find?` skips a prefix on which the predicate is everywhere false. -/
theorem find_skip {α : Type} (p : α → Bool) :
    ∀ (l₁ l₂ : List α), (∀ a ∈ l₁, p a = false) → (l₁ ++ l₂).find? p = l₂.find? p := by
  intro l₁
  induction l₁ with
  | nil => intro l₂ _; rfl
  | cons a l ih =>
      intro l₂ h
      simp only [List.cons_append, List.find?]
      rw [h a (by simp)]
      exact ih l₂ fun b hb => h b (by simp [hb])

/-- The loop body reads the templates only through `rateLookup`. -/
theorem processRow_congr (rates rs : List WageRateDoc)
    (h : ∀ c, rateLookup rates c = rateLookup rs c) :
    processRow rates = processRow rs := by
  funext acc t
  simp only [processRow, h t.craft]

/-- Loop invariant: the gross accumulator stays the sum of the base-pay
and fringe accumulators. -/
theorem gross_invariant (rates : List WageRateDoc) :
    ∀ (rows : List RowDoc) (acc : Totals × List String),
      acc.1.gross = acc.1.base_pay + acc.1.fringe →
      (rows.foldl (processRow rates) acc).1.gross =
        (rows.foldl (processRow rates) acc).1.base_pay +
          (rows.foldl (processRow rates) acc).1.fringe := by
  intro rows
  induction rows with
  | nil => intro acc h; simpa using h
  | cons t rows ih =>
      intro acc h
      simp only [List.foldl_cons]
      apply ih
      simp only [processRow]
      cases hm : rateLookup rates t.craft with
      | none => simpa using h
      | some rm =>
          simp only []
          rw [h]
          ring

/-- `rhe` lands within half a unit of its argument. -/
theorem rhe_close (x : ℚ) : |x - (rhe x : ℚ)| ≤ 1/2 := by
  have h0 : (⌊x⌋ : ℚ) ≤ x := Int.floor_le x
  have h1 : x < (⌊x⌋ : ℚ) + 1 := Int.lt_floor_add_one x
  simp only [rhe]
  split_ifs with hlt hgt heven
  · rw [abs_of_nonneg (by linarith)]
    linarith
  · rw [abs_of_nonpos (by push_cast; linarith)]
    push_cast
    linarith
  · rw [abs_of_nonneg (by linarith)]
    linarith
  · rw [abs_of_nonpos (by push_cast; linarith)]
    push_cast
    have : x - (⌊x⌋ : ℚ) = 1/2 := le_antisymm (not_lt.mp hgt) (not_lt.mp hlt)
    linarith

/-- `rhe` is even whenever its argument sits exactly on a tie. -/
theorem rhe_tie_even (x : ℚ) : rhe x % 2 = 0 ∨ |x - (rhe x : ℚ)| < 1/2 := by
  have h0 : (⌊x⌋ : ℚ) ≤ x := Int.floor_le x
  have h1 : x < (⌊x⌋ : ℚ) + 1 := Int.lt_floor_add_one x
  simp only [rhe]
  split_ifs with hlt hgt heven
  · right
    rw [abs_of_nonneg (by linarith)]
    linarith
  · right
    rw [abs_of_nonpos (by push_cast; linarith)]
    push_cast
    linarith
  · left
    exact heven
  · left
    omega

/-! ## Claims -/

/-- Claim C1: every matched row adds exactly hours, base_pay =
base_rate * (apprentice_factor if apprentice else 1) * hours, fringe =
fringe_rate * hours and gross = base_pay + fringe to the accumulators;
Scenario A yields totals 8 / 400 / 40 / 440 with no warnings (also
after rounding), and an apprentice row with factor 0.6, base_rate 40
and 10 hours contributes 240 to base_pay. -/
theorem C1_matched_row_contribution :
    (∀ (rates : List WageRateDoc) (acc : Totals × List String) (t : RowDoc)
        (rm : RateVal), rateLookup rates t.craft = some rm →
        processRow rates acc t =
          ({ hours := acc.1.hours + (t.hours).getD 0
           , base_pay := acc.1.base_pay +
               rm.base * (if (t.apprentice).getD false then rm.apprentice_factor else 1) *
                 (t.hours).getD 0
           , fringe := acc.1.fringe + rm.fringe * (t.hours).getD 0
           , gross := acc.1.gross +
               (rm.base * (if (t.apprentice).getD false then rm.apprentice_factor else 1) *
                  (t.hours).getD 0 + rm.fringe * (t.hours).getD 0) }, acc.2)) ∧
    (aggregate [⟨some "Electrician", some 50, some 5, some (3/5)⟩]
        [⟨some "Electrician", some 8, some false⟩] = (⟨8, 400, 40, 440⟩, []) ∧
      roundTotals ⟨8, 400, 40, 440⟩ = ⟨8, 400, 40, 440⟩) ∧
    (∀ f : ℚ, (aggregate [⟨some "Welder", some 40, some f, some (3/5)⟩]
        [⟨some "Welder", some 10, some true⟩]).1.base_pay = 240) := by
  refine ⟨?_, ⟨?_, ?_⟩, ?_⟩
  · intro rates acc t rm h
    simp only [processRow, h]
  · norm_num [aggregate, processRow, rateLookup, toRateVal, List.find?]
  · norm_num [roundTotals, round2, rhe]
  · intro f
    norm_num [aggregate, processRow, rateLookup, toRateVal, List.find?]

/-- Witness for C1 at a concrete matched row. -/
theorem C1_matched_row_contribution_witness :
    rateLookup [⟨some "Electrician", some 50, some 5, some 1⟩]
        (RowDoc.craft ⟨some "Electrician", some 8, some false⟩) =
      some (toRateVal ⟨some "Electrician", some 50, some 5, some 1⟩) ∧
    processRow [⟨some "Electrician", some 50, some 5, some 1⟩] (⟨0, 0, 0, 0⟩, [])
        ⟨some "Electrician", some 8, some false⟩ =
      ({ hours := (0 : ℚ) + (Option.getD (some (8 : ℚ)) 0)
       , base_pay := (0 : ℚ) +
           (toRateVal ⟨some "Electrician", some 50, some 5, some 1⟩).base *
             (if Option.getD (some false) false
              then (toRateVal ⟨some "Electrician", some 50, some 5, some 1⟩).apprentice_factor
              else 1) * (Option.getD (some (8 : ℚ)) 0)
       , fringe := (0 : ℚ) +
           (toRateVal ⟨some "Electrician", some 50, some 5, some 1⟩).fringe *
             (Option.getD (some (8 : ℚ)) 0)
       , gross := (0 : ℚ) +
           ((toRateVal ⟨some "Electrician", some 50, some 5, some 1⟩).base *
              (if Option.getD (some false) false
               then (toRateVal ⟨some "Electrician", some 50, some 5, some 1⟩).apprentice_factor
               else 1) * (Option.getD (some (8 : ℚ)) 0) +
            (toRateVal ⟨some "Electrician", some 50, some 5, some 1⟩).fringe *
              (Option.getD (some (8 : ℚ)) 0)) }, []) :=
  ⟨rfl, C1_matched_row_contribution.1 _ _ _ _ rfl⟩

/-- Claim C2: every unmatched row appends exactly one warning, built as
the literal text Missing wage rate for craft followed by the craft in
single quotes (the craft rendered verbatim, a missing craft rendering
as None), appended in encounter order without deduplication, and the
row contributes nothing to the four totals; this covers a zero-hours
row and a missing-craft row. -/
theorem C2_unmatched_row_warning :
    (∀ (rates : List WageRateDoc) (acc : Totals × List String) (t : RowDoc),
        rateLookup rates t.craft = none →
        processRow rates acc t = (acc.1, acc.2 ++ [missingWarning t.craft])) ∧
    (∀ c : String, missingWarning (some c) =
        "Missing wage rate for craft " ++ squote ++ c ++ squote) ∧
    (missingWarning none = "Missing wage rate for craft " ++ squote ++ "None" ++ squote) ∧
    (aggregate [⟨some "Electrician", some 50, none, none⟩]
        [⟨some "Plumber", some 5, some false⟩] =
      (⟨0, 0, 0, 0⟩, [missingWarning (some "Plumber")])) ∧
    (aggregate [⟨some "Electrician", some 50, none, none⟩]
        [⟨some "Plumber", some 0, some false⟩] =
      (⟨0, 0, 0, 0⟩, [missingWarning (some "Plumber")])) ∧
    (aggregate [⟨some "Electrician", some 50, none, none⟩] [⟨none, some 3, none⟩] =
      (⟨0, 0, 0, 0⟩, [missingWarning none])) ∧
    (aggregate [⟨some "Electrician", some 50, none, none⟩]
        [⟨some "Plumber", some 5, some false⟩, ⟨some "Plumber", some 2, some false⟩] =
      (⟨0, 0, 0, 0⟩, [missingWarning (some "Plumber"), missingWarning (some "Plumber")])) := by
  refine ⟨?_, fun _ => rfl, rfl, rfl, rfl, rfl, rfl⟩
  intro rates acc t h
  simp only [processRow, h]

/-- Witness for C2 at a concrete unmatched row. -/
theorem C2_unmatched_row_warning_witness :
    rateLookup [⟨some "Electrician", some 50, none, none⟩]
        (RowDoc.craft ⟨some "Plumber", some 5, some false⟩) = none ∧
    processRow [⟨some "Electrician", some 50, none, none⟩] (⟨0, 0, 0, 0⟩, [])
        ⟨some "Plumber", some 5, some false⟩ =
      ((⟨0, 0, 0, 0⟩ : Totals), [] ++ [missingWarning (some "Plumber")]) :=
  ⟨rfl, C2_unmatched_row_warning.1 _ _ _ rfl⟩

/-- Claim C3, counterexample: the totals are NOT rounded with
round-half-away-from-zero. With one matched row of 0.125 hours the
unrounded hours total is 1/8; half-away-from-zero would give 0.13 but
the code returns 0.12. -/
theorem C3_rounding_counterexample :
    (aggregate [⟨some "Electrician", some 0, some 0, none⟩]
        [⟨some "Electrician", some (1/8), some false⟩]).1.hours = 1/8 ∧
    round2Spec (1/8) = 13/100 ∧
    (roundTotals (aggregate [⟨some "Electrician", some 0, some 0, none⟩]
        [⟨some "Electrician", some (1/8), some false⟩]).1).hours = 12/100 ∧
    (12 : ℚ)/100 ≠ 13/100 := by
  refine ⟨?_, ?_, ?_, by norm_num⟩
  · norm_num [aggregate, processRow, rateLookup, toRateVal, List.find?]
  · norm_num [round2Spec]
  · norm_num [aggregate, processRow, rateLookup, toRateVal, List.find?,
      roundTotals, round2, rhe]

/-- Claim C3, amended: each of the four final accumulators is rounded
to exactly 2 decimal places using round-half-to-even: each returned
total is n/100 for the integer n within half a unit of 100 times the
exact accumulator, and n is even whenever the distance is exactly half
a unit. -/
theorem C3_rounding_half_even :
    (∀ t : Totals, roundTotals t =
        ⟨round2 t.hours, round2 t.base_pay, round2 t.fringe, round2 t.gross⟩) ∧
    (∀ q : ℚ, round2 q = (rhe (q * 100) : ℚ) / 100 ∧
        |q * 100 - (rhe (q * 100) : ℚ)| ≤ 1/2 ∧
        (rhe (q * 100) % 2 = 0 ∨ |q * 100 - (rhe (q * 100) : ℚ)| < 1/2)) :=
  ⟨fun _ => rfl, fun q => ⟨rfl, rhe_close (q * 100), rhe_tie_even (q * 100)⟩⟩

/-- Claim C4: the totals stored in the created submission are the
rounded aggregation over exactly the stored timesheet entries whose
project_id and week_ending equal the request's values; appending an
entry that does not match both fields leaves the result unchanged. -/
theorem C4_snapshot (store : Store) (req : GenerateRequest) (pid : String)
    (proj : ProjectDoc)
    (h : store.projects.find? (fun p => p.1 = req.project_id) = some (pid, proj)) :
    (generate_submission store req).2 =
      .ok { project_id := req.project_id
          , week_ending := req.week_ending
          , totals := roundTotals (aggregate ((proj.wage_templates).getD [])
              ((store.timesheets.filter (matchesReq req)).map TimesheetDoc.toRow)).1
          , warnings := (aggregate ((proj.wage_templates).getD [])
              ((store.timesheets.filter (matchesReq req)).map TimesheetDoc.toRow)).2
          , status := "generated" } ∧
    (∀ extra : TimesheetDoc, matchesReq req extra = false →
        (generate_submission
            { projects := store.projects
            , timesheets := store.timesheets ++ [extra]
            , submissions := store.submissions } req).2 =
          (generate_submission store req).2) := by
  constructor
  · simp only [generate_submission, h]
  · intro extra hex
    simp only [generate_submission, h, List.filter_append, hex]
    simp [List.filter, hex]

/-- Witness for C4 on a store with one project, one matching and one
non-matching timesheet entry. -/
theorem C4_snapshot_witness :
    (Store.projects
        { projects := [("p1", ⟨some [⟨some "Electrician", some 50, some 5, some 1⟩]⟩)]
        , timesheets :=
            [⟨"p1", "2024-01-06", some "Electrician", some 8, some false⟩,
             ⟨"p2", "2024-01-06", some "Electrician", some 7, some false⟩]
        , submissions := [] }).find? (fun p => p.1 = GenerateRequest.project_id ⟨"p1", "2024-01-06"⟩) =
      some ("p1", ⟨some [⟨some "Electrician", some 50, some 5, some 1⟩]⟩) ∧
    (generate_submission
        { projects := [("p1", ⟨some [⟨some "Electrician", some 50, some 5, some 1⟩]⟩)]
        , timesheets :=
            [⟨"p1", "2024-01-06", some "Electrician", some 8, some false⟩,
             ⟨"p2", "2024-01-06", some "Electrician", some 7, some false⟩]
        , submissions := [] } ⟨"p1", "2024-01-06"⟩).2 =
      .ok { project_id := GenerateRequest.project_id ⟨"p1", "2024-01-06"⟩
          , week_ending := GenerateRequest.week_ending ⟨"p1", "2024-01-06"⟩
          , totals := roundTotals (aggregate
              ((ProjectDoc.wage_templates ⟨some [⟨some "Electrician", some 50, some 5, some 1⟩]⟩).getD [])
              (((Store.timesheets
                  { projects := [("p1", ⟨some [⟨some "Electrician", some 50, some 5, some 1⟩]⟩)]
                  , timesheets :=
                      [⟨"p1", "2024-01-06", some "Electrician", some 8, some false⟩,
                       ⟨"p2", "2024-01-06", some "Electrician", some 7, some false⟩]
                  , submissions := [] }).filter (matchesReq ⟨"p1", "2024-01-06"⟩)).map
                TimesheetDoc.toRow)).1
          , warnings := (aggregate
              ((ProjectDoc.wage_templates ⟨some [⟨some "Electrician", some 50, some 5, some 1⟩]⟩).getD [])
              (((Store.timesheets
                  { projects := [("p1", ⟨some [⟨some "Electrician", some 50, some 5, some 1⟩]⟩)]
                  , timesheets :=
                      [⟨"p1", "2024-01-06", some "Electrician", some 8, some false⟩,
                       ⟨"p2", "2024-01-06", some "Electrician", some 7, some false⟩]
                  , submissions := [] }).filter (matchesReq ⟨"p1", "2024-01-06"⟩)).map
                TimesheetDoc.toRow)).2
          , status := "generated" } :=
  ⟨rfl,
   (C4_snapshot
      { projects := [("p1", ⟨some [⟨some "Electrician", some 50, some 5, some 1⟩]⟩)]
      , timesheets :=
          [⟨"p1", "2024-01-06", some "Electrician", some 8, some false⟩,
           ⟨"p2", "2024-01-06", some "Electrician", some 7, some false⟩]
      , submissions := [] } ⟨"p1", "2024-01-06"⟩ "p1"
      ⟨some [⟨some "Electrician", some 50, some 5, some 1⟩]⟩ rfl).1⟩

/-- Claim C5: when no stored project has the request's project_id,
generate_submission returns the HTTP 404 error Project not found and
the store is unchanged (no submission document is created). -/
theorem C5_project_not_found (store : Store) (req : GenerateRequest)
    (h : ∀ p ∈ store.projects, p.1 ≠ req.project_id) :
    generate_submission store req = (store, .error ⟨404, "Project not found"⟩) := by
  have hf : store.projects.find? (fun p => p.1 = req.project_id) = none := by
    rw [List.find?_eq_none]
    intro p hp
    simpa using h p hp
  simp [generate_submission, hf]

/-- Witness for C5 on a store whose only project has a different id. -/
theorem C5_project_not_found_witness :
    (∀ p ∈ ({ projects := [("p2", ⟨some []⟩)], timesheets := [], submissions := [] } : Store).projects,
        p.1 ≠ "p1") ∧
    generate_submission { projects := [("p2", ⟨some []⟩)], timesheets := [], submissions := [] }
        ⟨"p1", "2024-01-06"⟩ =
      ({ projects := [("p2", ⟨some []⟩)], timesheets := [], submissions := [] },
       .error ⟨404, "Project not found"⟩) :=
  ⟨by decide, C5_project_not_found _ _ (by decide)⟩

/-- Claim C6: with duplicate craft names in the template list the rate
lookup returns the values of the last entry with that craft, and the
aggregation depends on the templates only through the lookup, so
earlier duplicate entries have no effect on any total. -/
theorem C6_last_write_wins :
    (∀ (pre : List WageRateDoc) (r : WageRateDoc) (post : List WageRateDoc),
        (∀ r' ∈ post, r'.craft ≠ r.craft) →
        rateLookup (pre ++ r :: post) r.craft = some (toRateVal r)) ∧
    (∀ (rates rs : List WageRateDoc) (rows : List RowDoc),
        (∀ c, rateLookup rates c = rateLookup rs c) →
        aggregate rates rows = aggregate rs rows) := by
  constructor
  · intro pre r post hpost
    unfold rateLookup
    have hrev : (pre ++ r :: post).reverse = post.reverse ++ (r :: pre.reverse) := by
      simp
    rw [hrev, find_skip]
    · simp [List.find?]
    · intro a ha
      simp only [List.mem_reverse] at ha
      simpa using hpost a ha
  · intro rates rs rows h
    unfold aggregate
    rw [processRow_congr rates rs h]

/-- Witness for C6: a duplicated craft resolves to the later entry. -/
theorem C6_last_write_wins_witness :
    (∀ r' ∈ ([] : List WageRateDoc),
        WageRateDoc.craft r' ≠ WageRateDoc.craft ⟨some "Electrician", some 60, some 6, some 1⟩) ∧
    rateLookup ([⟨some "Electrician", some 50, some 5, some 1⟩] ++
        (⟨some "Electrician", some 60, some 6, some 1⟩ : WageRateDoc) :: [])
        (WageRateDoc.craft ⟨some "Electrician", some 60, some 6, some 1⟩) =
      some (toRateVal ⟨some "Electrician", some 60, some 6, some 1⟩) :=
  ⟨by simp, C6_last_write_wins.1 [⟨some "Electrician", some 50, some 5, some 1⟩]
    ⟨some "Electrician", some 60, some 6, some 1⟩ [] (by simp)⟩

/-- Claim C7: with an empty row list the aggregation returns all four
accumulators 0 with no warnings, and rounding keeps the zeros. -/
theorem C7_empty_rows (rates : List WageRateDoc) :
    aggregate rates [] = (⟨0, 0, 0, 0⟩, []) ∧
    roundTotals ⟨0, 0, 0, 0⟩ = ⟨0, 0, 0, 0⟩ := by
  refine ⟨rfl, ?_⟩
  norm_num [roundTotals, round2, rhe]

/-- Claim C8: after processing any prefix of the rows, and after all
of them, the unrounded gross accumulator equals the sum of the
unrounded base_pay and fringe accumulators. -/
theorem C8_gross_is_base_plus_fringe (rates : List WageRateDoc)
    (rows : List RowDoc) (n : ℕ) :
    (aggregate rates (rows.take n)).1.gross =
      (aggregate rates (rows.take n)).1.base_pay +
        (aggregate rates (rows.take n)).1.fringe ∧
    (aggregate rates rows).1.gross =
      (aggregate rates rows).1.base_pay + (aggregate rates rows).1.fringe :=
  ⟨gross_invariant rates (rows.take n) _ (by norm_num),
   gross_invariant rates rows _ (by norm_num)⟩

/-- Claim C9: missing document fields get fixed defaults: a row
missing hours behaves as hours 0, a row missing the apprentice flag as
false, a template missing base_rate or fringe_rate as 0, and a
template missing apprentice_factor as 0.6. -/
theorem C9_field_defaults :
    (∀ (c : Option String) (f a : Option ℚ),
        toRateVal ⟨c, none, f, a⟩ = toRateVal ⟨c, some 0, f, a⟩) ∧
    (∀ (c : Option String) (b a : Option ℚ),
        toRateVal ⟨c, b, none, a⟩ = toRateVal ⟨c, b, some 0, a⟩) ∧
    (∀ (c : Option String) (b f : Option ℚ),
        toRateVal ⟨c, b, f, none⟩ = toRateVal ⟨c, b, f, some (3/5)⟩) ∧
    (∀ (rates : List WageRateDoc) (acc : Totals × List String)
        (c : Option String) (a : Option Bool),
        processRow rates acc ⟨c, none, a⟩ = processRow rates acc ⟨c, some 0, a⟩) ∧
    (∀ (rates : List WageRateDoc) (acc : Totals × List String)
        (c : Option String) (h : Option ℚ),
        processRow rates acc ⟨c, h, none⟩ = processRow rates acc ⟨c, h, some false⟩) :=
  ⟨fun _ _ _ => rfl, fun _ _ _ => rfl, fun _ _ _ => rfl,
   fun _ _ _ _ => rfl, fun _ _ _ _ => rfl⟩

/-- Claim C10: with all template rates nonnegative, appending one
matched row with nonnegative hours never decreases any of the four
unrounded totals and leaves the warnings unchanged. -/
theorem C10_append_matched_row_monotone (rates : List WageRateDoc)
    (rows : List RowDoc) (t : RowDoc) (rm : RateVal)
    (hnn : ∀ r ∈ rates, 0 ≤ (toRateVal r).base ∧ 0 ≤ (toRateVal r).fringe ∧
        0 ≤ (toRateVal r).apprentice_factor)
    (hh : 0 ≤ (t.hours).getD 0)
    (hm : rateLookup rates t.craft = some rm) :
    (aggregate rates rows).1.hours ≤ (aggregate rates (rows ++ [t])).1.hours ∧
    (aggregate rates rows).1.base_pay ≤ (aggregate rates (rows ++ [t])).1.base_pay ∧
    (aggregate rates rows).1.fringe ≤ (aggregate rates (rows ++ [t])).1.fringe ∧
    (aggregate rates rows).1.gross ≤ (aggregate rates (rows ++ [t])).1.gross ∧
    (aggregate rates (rows ++ [t])).2 = (aggregate rates rows).2 := by
  obtain ⟨r, hfind, hrm⟩ := Option.map_eq_some'.mp hm
  have hrmem : r ∈ rates := by
    have := List.mem_of_find?_eq_some hfind
    simpa using this
  obtain ⟨hb, hf, ha⟩ := hnn r hrmem
  rw [hrm] at hb hf ha
  have hfold : aggregate rates (rows ++ [t]) =
      processRow rates (aggregate rates rows) t := by
    simp [aggregate, List.foldl_append]
  have hbr : 0 ≤ rm.base * (if (t.apprentice).getD false then rm.apprentice_factor else 1) := by
    apply mul_nonneg hb
    split_ifs with hap
    · exact ha
    · norm_num
  rw [hfold]
  simp only [processRow, hm]
  refine ⟨by linarith, ?_, ?_, ?_, trivial⟩
  · have : 0 ≤ rm.base * (if (t.apprentice).getD false then rm.apprentice_factor else 1) *
        (t.hours).getD 0 := mul_nonneg hbr hh
    linarith
  · have : 0 ≤ rm.fringe * (t.hours).getD 0 := mul_nonneg hf hh
    linarith
  · have h1 : 0 ≤ rm.base * (if (t.apprentice).getD false then rm.apprentice_factor else 1) *
        (t.hours).getD 0 := mul_nonneg hbr hh
    have h2 : 0 ≤ rm.fringe * (t.hours).getD 0 := mul_nonneg hf hh
    linarith

/-- Witness for C10 at a concrete matched apprentice row. -/
theorem C10_append_matched_row_monotone_witness :
    (∀ r ∈ [(⟨some "Electrician", some 50, some 5, some 1⟩ : WageRateDoc)],
        0 ≤ (toRateVal r).base ∧ 0 ≤ (toRateVal r).fringe ∧
          0 ≤ (toRateVal r).apprentice_factor) ∧
    (0 : ℚ) ≤ (Option.getD (RowDoc.hours ⟨some "Electrician", some 2, some true⟩) 0) ∧
    rateLookup [⟨some "Electrician", some 50, some 5, some 1⟩]
        (RowDoc.craft ⟨some "Electrician", some 2, some true⟩) =
      some (toRateVal (⟨some "Electrician", some 50, some 5, some 1⟩ : WageRateDoc)) ∧
    (aggregate [⟨some "Electrician", some 50, some 5, some 1⟩] []).1.hours ≤
      (aggregate [⟨some "Electrician", some 50, some 5, some 1⟩]
        ([] ++ [⟨some "Electrician", some 2, some true⟩])).1.hours :=
  ⟨by decide, by decide, rfl,
   (C10_append_matched_row_monotone [⟨some "Electrician", some 50, some 5, some 1⟩] []
      ⟨some "Electrician", some 2, some true⟩
      (toRateVal (⟨some "Electrician", some 50, some 5, some 1⟩ : WageRateDoc))
      (by decide) (by decide) rfl).1⟩
